import Mathlib

/-!
Verification of the focus firmware drivers (rotary encoder, debounce filter,
switch state machine, SPI device wrapper) against their natural-language
specification.  Each Rust function is embedded as an executable Lean
definition; machine integers are modelled as `Nat` with explicit `% 2^w`
where overflow matters, fallible pin reads as `Option Bool` (a `none` read
is a read fault), and a Rust panic (via `expect`) as an `Option` result
that is `none`.
-/

namespace Focus

/-- Rotation direction reported by the rotary-encoder drivers
(`Direction` in src/hl_driver/src/encoder.rs and
src/src/hardware/rotary_encoder.rs). -/
inductive Direction where
  | CounterClockwise
  | Clockwise
  | Rest
deriving DecidableEq

/-- Default internal encoder state, `DEFAULT_STATE = 0b11` in both encoder
variants. -/
def DEFAULT_STATE : Nat := 0b11

/-- The 4-bit state to direction lookup table shared verbatim by
`Hy040::encode` (src/hl_driver/src/encoder.rs:97-107) and `Encode::update`
(src/src/hardware/rotary_encoder.rs:64-74). -/
def directionOf (s : Nat) : Direction :=
  match s with
  | 13 => Direction.Clockwise
  | 4 => Direction.Clockwise
  | 2 => Direction.Clockwise
  | 11 => Direction.Clockwise
  | 14 => Direction.CounterClockwise
  | 8 => Direction.CounterClockwise
  | 1 => Direction.CounterClockwise
  | 7 => Direction.CounterClockwise
  | _ => Direction.Rest

/-- `Hy040::encode` (src/hl_driver/src/encoder.rs:85-108).  The state is
shifted left by 2, bit 1 is set when the clk (line A) read is high, bit 0
when the dt (line B) read is high, then masked to 4 bits, stored, and mapped
through the lookup table.  Each pin read is a Rust
`Result<bool, _>` consumed with `.expect("Should not fail")`: a failed read
(`none` here) panics, embedded as result `none`; on success the updated
state and the returned direction are produced. -/
def hy040Encode (state : Nat) (clkRead dtRead : Option Bool) :
    Option (Nat × Direction) :=
  match clkRead, dtRead with
  | some clkHigh, some dtHigh =>
    let s1 := state <<< 2
    let s2 := if clkHigh then s1 ||| 0x2 else s1
    let s3 := if dtHigh then s2 ||| 0x1 else s2
    let s4 := s3 &&& 0x0F
    some (s4, directionOf s4)
  | _, _ => none

/-- `Encode::update` (src/src/hardware/rotary_encoder.rs:52-75).  Same
shape as `Hy040::encode` but the clk read sets bit 0 and the dt read sets
bit 1, and the esp-hal pin reads are infallible. -/
def encodeUpdate (state : Nat) (clkHigh dtHigh : Bool) : Nat × Direction :=
  let s1 := state <<< 2
  let s2 := if clkHigh then s1 ||| 0x1 else s1
  let s3 := if dtHigh then s2 ||| 0x2 else s2
  let s4 := s3 &&& 0x0F
  (s4, directionOf s4)

/-- `DEBOUNCE_MASK = 0x07` in src/hl_driver/src/debounce.rs. -/
def DEBOUNCE_MASK : Nat := 0x07

/-- `RELEASED_MASK = 0x00` in src/hl_driver/src/debounce.rs. -/
def RELEASED_MASK : Nat := 0x00

/-- `DebounceState` (src/hl_driver/src/debounce.rs). -/
inductive DebounceState where
  | Loaded
  | Unloaded
  | Transition
deriving DecidableEq

/-- `From<u8> for DebounceState` (src/hl_driver/src/debounce.rs:26-34):
the register value is matched whole against `DEBOUNCE_MASK` and then
`RELEASED_MASK`; no masking of the high bits is performed. -/
def debounceStateFrom (value : Nat) : DebounceState :=
  if value = DEBOUNCE_MASK then DebounceState.Loaded
  else if value = RELEASED_MASK then DebounceState.Unloaded
  else DebounceState.Transition

/-- `Debouncer` (src/hl_driver/src/debounce.rs:54-57): a u8 shift register,
modelled as a `Nat` kept below 256 by the update. -/
structure Debouncer where
  register : Nat
deriving DecidableEq

/-- `Debouncer::default()`: zero register. -/
def Debouncer.default : Debouncer := ⟨0⟩

/-- `Debouncer::debounce` (src/hl_driver/src/debounce.rs:60-62):
`register = (register << 1) | state` on u8 (the shifted-out high bit is
discarded, hence `% 256`). -/
def Debouncer.debounce (d : Debouncer) (state : Bool) : Debouncer :=
  ⟨((d.register <<< 1) ||| (if state then 1 else 0)) % 256⟩

/-- `Debouncer::get_state` (src/hl_driver/src/debounce.rs:64-66). -/
def Debouncer.getState (d : Debouncer) : DebounceState :=
  debounceStateFrom d.register

/-- Iterated feeding of `false` samples into a debouncer. -/
def debounceFalses (d : Debouncer) : Nat → Debouncer
  | 0 => d
  | n + 1 => (debounceFalses d n).debounce false

/-- `SwitchState` (src/hl_driver/src/switch.rs:23-28). -/
inductive SwitchState where
  | Pressed
  | Released
  | Transition
  | Faulty
deriving DecidableEq, BEq

/-- `SwitchError` (src/hl_driver/src/switch.rs:45-47). -/
inductive SwitchError where
  | ReadPinState
deriving DecidableEq

/-- `Switch` (src/hl_driver/src/switch.rs:88-95).  The pin itself is
external input: each call receives the outcome of `pin.is_high()` as an
`Option Bool` (a `none` is a failed read).  `pressed_state : PinState` is
modelled as the `Bool` that `bool::from` yields on it (High = true). -/
structure Switch where
  pressedState : Bool
  lastState : SwitchState
deriving DecidableEq

/-- `Switch::new` (src/hl_driver/src/switch.rs:114-120): starts with
`last_state = Released`. -/
def Switch.new (pressedState : Bool) : Switch :=
  ⟨pressedState, SwitchState.Released⟩

/-- `Switch::get_current_state` (src/hl_driver/src/switch.rs:158-169). -/
def Switch.getCurrentState (sw : Switch) (pinRead : Option Bool) :
    SwitchState :=
  match pinRead with
  | some b =>
    if b = sw.pressedState then SwitchState.Pressed else SwitchState.Released
  | none => SwitchState.Faulty

/-- `Switch::has_been_pressed` (src/hl_driver/src/switch.rs:180-191).
Returns the Rust result together with the post-state of the switch. -/
def Switch.hasBeenPressed (sw : Switch) (pinRead : Option Bool) :
    Except SwitchError Bool × Switch :=
  let currentState := sw.getCurrentState pinRead
  match currentState with
  | SwitchState.Faulty => (Except.error SwitchError.ReadPinState, sw)
  | _ =>
    let wasPressed := (sw.lastState != SwitchState.Pressed)
      && (currentState == SwitchState.Pressed)
    (Except.ok wasPressed, { sw with lastState := currentState })

/-- `DebouncedSwitch` (src/hl_driver/src/switch.rs:206-213), with the
concrete `Debouncer` as the attached filter. -/
structure DebouncedSwitch where
  switch : Switch
  debouncer : Debouncer
deriving DecidableEq

/-- `DebouncedSwitch::get_current_state` (src/hl_driver/src/switch.rs:233-250):
on a successful read the debouncer is fed `read == pressed_state` and the
debounce state is mapped to a switch state; on a failed read `Faulty` is
returned and the debouncer is left untouched.  Returns the state together
with the post-state of the whole object. -/
def DebouncedSwitch.getCurrentState (dsw : DebouncedSwitch)
    (pinRead : Option Bool) : SwitchState × DebouncedSwitch :=
  match pinRead with
  | some b =>
    let d := dsw.debouncer.debounce (b = dsw.switch.pressedState)
    let st :=
      match d.getState with
      | DebounceState.Loaded => SwitchState.Pressed
      | DebounceState.Transition => SwitchState.Transition
      | DebounceState.Unloaded => SwitchState.Released
    (st, { dsw with debouncer := d })
  | none => (SwitchState.Faulty, dsw)

/-- `DebouncedSwitch::has_been_pressed` (src/hl_driver/src/switch.rs:263-274). -/
def DebouncedSwitch.hasBeenPressed (dsw : DebouncedSwitch)
    (pinRead : Option Bool) : Except SwitchError Bool × DebouncedSwitch :=
  let res := dsw.getCurrentState pinRead
  let currentState := res.1
  let dsw1 := res.2
  match currentState with
  | SwitchState.Faulty => (Except.error SwitchError.ReadPinState, dsw1)
  | _ =>
    let wasPressed := (dsw1.switch.lastState != SwitchState.Pressed)
      && (currentState == SwitchState.Pressed)
    (Except.ok wasPressed,
      { dsw1 with switch := { dsw1.switch with lastState := currentState } })

/-- SPI operation kinds (`embedded_hal::spi::Operation`); the buffer
contents are abstracted into the bus-model state. -/
inductive SpiOp where
  | read
  | write
  | transfer
  | transferInPlace
  | delayNs (ns : Nat)
deriving DecidableEq

/-- Abstract model of a physical `SpiBus`: each data operation and the
flush either update the bus state or fail with the underlying bus error.
Buffer contents are folded into the state type. -/
structure SpiBusModel (σ ε : Type) where
  readOp : σ → Except ε σ
  writeOp : σ → Except ε σ
  transferOp : σ → Except ε σ
  transferInPlaceOp : σ → Except ε σ
  flushOp : σ → Except ε σ

/-- Chip-select `OutputPin` model: `set_low` and `set_high` may fail
(`none`), which the wrappers map to a ChipSelect error. -/
structure CsPinModel (π : Type) where
  setLow : π → Option π
  setHigh : π → Option π

/-- `SpiPeripheralError` (src/focus/src/drivers/spi_peripheral.rs:10-14),
identical in shape to `SpiDeviceWrapperError`
(src/src/spi_device_wrapper.rs:9-13). -/
inductive SpiPeripheralError (ε : Type) where
  | SpiBus (e : ε)
  | Lock
  | ChipSelect
deriving DecidableEq

/-- Dispatch of one queued operation to the bus, as in the `match` inside
both `transaction` implementations.  `DelayNs` is a busy-wait loop that
never touches the bus and cannot fail. -/
def SpiBusModel.execOp {σ ε : Type} (m : SpiBusModel σ ε) (bus : σ) :
    SpiOp → Except ε σ
  | SpiOp.read => m.readOp bus
  | SpiOp.write => m.writeOp bus
  | SpiOp.transfer => m.transferOp bus
  | SpiOp.transferInPlace => m.transferInPlaceOp bus
  | SpiOp.delayNs _ => Except.ok bus

/-- The operation loop of both `transaction` implementations: run the
queued operations in order, stopping at the first bus error.  Returns the
error (if any), the bus state after the last successful operation, and the
list of operations actually executed (the failing one included). -/
def runOps {σ ε : Type} (m : SpiBusModel σ ε) (bus : σ) :
    List SpiOp → Option ε × σ × List SpiOp
  | [] => (none, bus, [])
  | op :: rest =>
    match m.execOp bus op with
    | Except.ok bus2 =>
      let res := runOps m bus2 rest
      (res.1, res.2.1, op :: res.2.2)
    | Except.error e => (some e, bus, [op])

/-- Observable outcome of one `transaction` call: the Rust return value,
the final bus and chip-select pin states, the operations that were executed
against the bus, and whether the deassert-chip-select step was reached. -/
structure TransactionResult (σ π ε : Type) where
  result : Except (SpiPeripheralError ε) Unit
  bus : σ
  cs : π
  executed : List SpiOp
  deassertReached : Bool

/-- `SpiDeviceWrapper::transaction` (src/src/spi_device_wrapper.rs:88-133):
assert chip-select, execute the queued operations in sequence aborting on
the first bus error (mapped to `SpiBus`), flush, deassert chip-select. -/
def spiDeviceWrapperTransaction {σ π ε : Type} (m : SpiBusModel σ ε)
    (p : CsPinModel π) (bus : σ) (cs : π) (ops : List SpiOp) :
    TransactionResult σ π ε :=
  match p.setLow cs with
  | none => ⟨Except.error SpiPeripheralError.ChipSelect, bus, cs, [], false⟩
  | some cs1 =>
    match runOps m bus ops with
    | (some e, bus1, tr) =>
      ⟨Except.error (SpiPeripheralError.SpiBus e), bus1, cs1, tr, false⟩
    | (none, bus1, tr) =>
      match m.flushOp bus1 with
      | Except.error e =>
        ⟨Except.error (SpiPeripheralError.SpiBus e), bus1, cs1, tr, false⟩
      | Except.ok bus2 =>
        match p.setHigh cs1 with
        | none =>
          ⟨Except.error SpiPeripheralError.ChipSelect, bus2, cs1, tr, true⟩
        | some cs2 => ⟨Except.ok (), bus2, cs2, tr, true⟩

/-- `SpiPeripheral::transaction` (src/focus/src/drivers/spi_peripheral.rs:95-140):
inside the critical section, take the bus out of the mutex-guarded
`Option` (a missing bus yields `Lock`), then assert chip-select, run the
operations, flush and deassert exactly as the wrapper does. -/
def spiPeripheralTransaction {σ π ε : Type} (m : SpiBusModel σ ε)
    (p : CsPinModel π) (busOpt : Option σ) (cs : π) (ops : List SpiOp) :
    TransactionResult (Option σ) π ε :=
  match busOpt with
  | none => ⟨Except.error SpiPeripheralError.Lock, none, cs, [], false⟩
  | some bus =>
    match p.setLow cs with
    | none =>
      ⟨Except.error SpiPeripheralError.ChipSelect, some bus, cs, [], false⟩
    | some cs1 =>
      match runOps m bus ops with
      | (some e, bus1, tr) =>
        ⟨Except.error (SpiPeripheralError.SpiBus e), some bus1, cs1, tr, false⟩
      | (none, bus1, tr) =>
        match m.flushOp bus1 with
        | Except.error e =>
          ⟨Except.error (SpiPeripheralError.SpiBus e), some bus1, cs1, tr,
            false⟩
        | Except.ok bus2 =>
          match p.setHigh cs1 with
          | none =>
            ⟨Except.error SpiPeripheralError.ChipSelect, some bus2, cs1, tr,
              true⟩
          | some cs2 => ⟨Except.ok (), some bus2, cs2, tr, true⟩

/-!
Claim theorems.
-/

/-- C1: one call to `Hy040::encode` with successful reads updates the state
to `((old_state << 2) | (clk-high ? bit 1) | (dt-high ? bit 0)) & 0xF` and
returns Clockwise exactly on new states 13, 4, 2, 11, CounterClockwise
exactly on 14, 8, 1, 7, and Rest otherwise; from the default state 0b11,
A=low/B=high yields state 13 and Clockwise, A=high/B=low yields state 14
and CounterClockwise, and both low yields Rest. -/
theorem hy040_encode_step_and_table (st : Nat) (a b : Bool) :
    hy040Encode st (some a) (some b) =
      some (((st <<< 2) ||| (if a then 2 else 0) ||| (if b then 1 else 0)) &&& 0x0F,
        directionOf
          (((st <<< 2) ||| (if a then 2 else 0) ||| (if b then 1 else 0)) &&& 0x0F)) ∧
    (∀ n : Fin 16,
      (directionOf n.val = Direction.Clockwise ↔
        (n.val = 13 ∨ n.val = 4 ∨ n.val = 2 ∨ n.val = 11)) ∧
      (directionOf n.val = Direction.CounterClockwise ↔
        (n.val = 14 ∨ n.val = 8 ∨ n.val = 1 ∨ n.val = 7)) ∧
      (directionOf n.val = Direction.Rest ∨
        n.val ∈ ([13, 4, 2, 11, 14, 8, 1, 7] : List Nat))) ∧
    hy040Encode DEFAULT_STATE (some false) (some true) =
      some (13, Direction.Clockwise) ∧
    hy040Encode DEFAULT_STATE (some true) (some false) =
      some (14, Direction.CounterClockwise) ∧
    hy040Encode DEFAULT_STATE (some false) (some false) =
      some (12, Direction.Rest) :=
  ⟨by cases a <;> cases b <;> simp [hy040Encode, Nat.or_zero],
   by decide, rfl, rfl, rfl⟩

/-- C2 counterexample: register 0b1111 has its low three bits (after
masking with DEBOUNCE_MASK) all ones, yet get_state returns Transition
rather than Loaded, because the register is compared whole, unmasked. -/
theorem debounce_state_mask_counterexample :
    (15 &&& DEBOUNCE_MASK) = DEBOUNCE_MASK ∧
    decide (Debouncer.getState ⟨15⟩ = DebounceState.Loaded) = false ∧
    Debouncer.getState ⟨15⟩ = DebounceState.Transition := by decide

/-- C2 amended: get_state returns Loaded iff the entire register equals
DEBOUNCE_MASK = 0b111 (bits above the mask must be clear), Unloaded iff the
entire register equals zero, and Transition in every remaining case. -/
theorem debounce_state_characterization (d : Debouncer) :
    (d.getState = DebounceState.Loaded ↔ d.register = DEBOUNCE_MASK) ∧
    (d.getState = DebounceState.Unloaded ↔ d.register = RELEASED_MASK) ∧
    (d.getState = DebounceState.Transition ∨
      d.register = DEBOUNCE_MASK ∨ d.register = RELEASED_MASK) := by
  obtain ⟨r⟩ := d
  unfold Debouncer.getState debounceStateFrom
  by_cases h7 : r = DEBOUNCE_MASK
  · simp [h7, DEBOUNCE_MASK, RELEASED_MASK]
  · by_cases h0 : r = RELEASED_MASK
    · simp [h7, h0, DEBOUNCE_MASK, RELEASED_MASK]
    · simp [h7, h0]

/-- C4: a fresh Debouncer fed consecutive true samples reports Transition
after the first and second sample and Loaded exactly at the third. -/
theorem debouncer_loads_at_third_true :
    (Debouncer.default.debounce true).getState = DebounceState.Transition ∧
    ((Debouncer.default.debounce true).debounce true).getState =
      DebounceState.Transition ∧
    (((Debouncer.default.debounce true).debounce true).debounce true).getState =
      DebounceState.Loaded := by decide

/-- C7 counterexample: with a faulty clk read, `Hy040::encode` does not
complete with a Direction; the `.expect` panics, embedded as a `none`
result. -/
theorem hy040_encode_fault_counterexample :
    hy040Encode DEFAULT_STATE none (some true) = none ∧
    (hy040Encode DEFAULT_STATE none (some true)).isSome = false :=
  ⟨rfl, rfl⟩

/-- C7 amended: whenever both line reads succeed, `Hy040::encode` completes
normally and returns a Direction, with every 4-bit state outside the lookup
table resolved to Rest; a failed pin read instead aborts by panic
(`expect`), so the no-failure guarantee holds only for successful reads. -/
theorem hy040_encode_total_on_successful_reads (st : Nat) (a b : Bool) :
    (hy040Encode st (some a) (some b)).isSome = true ∧
    (∀ n : Fin 16,
      n.val ∈ ([13, 4, 2, 11, 14, 8, 1, 7] : List Nat) ∨
        directionOf n.val = Direction.Rest) :=
  ⟨rfl, by decide⟩

/-- C8: the two encoder variants disagree: from the shared default state
0b11 with clk low and dt high, `Hy040::encode` reaches state 13 and reports
Clockwise while `Encode::update` reaches state 14 and reports
CounterClockwise, because the latter maps clk to bit 0 and dt to bit 1. -/
theorem encoder_variants_inconsistent :
    hy040Encode DEFAULT_STATE (some false) (some true) =
      some (13, Direction.Clockwise) ∧
    encodeUpdate DEFAULT_STATE false true = (14, Direction.CounterClockwise) ∧
    decide (Direction.Clockwise = Direction.CounterClockwise) = false ∧
    (∀ (st : Nat) (a b : Bool),
      (encodeUpdate st a b).1 =
        ((st <<< 2) ||| (if a then 1 else 0) ||| (if b then 2 else 0)) &&& 0x0F) :=
  ⟨rfl, rfl, rfl,
   fun st a b => by cases a <;> cases b <;> simp [encodeUpdate, Nat.or_zero]⟩

/-- C9: on a failed pin read, `DebouncedSwitch::get_current_state` returns
Faulty with the whole object (debounce register included) unchanged, and
`DebouncedSwitch::has_been_pressed` returns the ReadPinState error with the
whole object (last_state included) unchanged. -/
theorem debounced_switch_fault_leaves_state (dsw : DebouncedSwitch) :
    dsw.getCurrentState none = (SwitchState.Faulty, dsw) ∧
    dsw.hasBeenPressed none = (Except.error SwitchError.ReadPinState, dsw) :=
  ⟨rfl, rfl⟩

/-- C10: `Switch::new` initializes last_state to Released, so a first
`has_been_pressed` call whose successful read already matches the
configured pressed level returns Ok(true). -/
theorem switch_new_first_press_detected (p : Bool) :
    (Switch.new p).lastState = SwitchState.Released ∧
    (Switch.new p).hasBeenPressed (some p) =
      (Except.ok true, ⟨p, SwitchState.Pressed⟩) := by
  cases p <;> exact ⟨rfl, rfl⟩

/-- C3: from any state reported Loaded, seven consecutive false samples
each leave the debouncer in Transition, and the eighth empties the full
8-bit register, reaching Unloaded. -/
theorem debouncer_unloads_after_eight_falses (d : Debouncer)
    (h : d.getState = DebounceState.Loaded) :
    (debounceFalses d 1).getState = DebounceState.Transition ∧
    (debounceFalses d 2).getState = DebounceState.Transition ∧
    (debounceFalses d 3).getState = DebounceState.Transition ∧
    (debounceFalses d 4).getState = DebounceState.Transition ∧
    (debounceFalses d 5).getState = DebounceState.Transition ∧
    (debounceFalses d 6).getState = DebounceState.Transition ∧
    (debounceFalses d 7).getState = DebounceState.Transition ∧
    (debounceFalses d 8).getState = DebounceState.Unloaded ∧
    (debounceFalses d 8).register = 0 := by
  obtain ⟨r⟩ := d
  have hr : r = DEBOUNCE_MASK := by
    unfold Debouncer.getState debounceStateFrom at h
    by_cases h7 : r = DEBOUNCE_MASK
    · exact h7
    · rw [if_neg h7] at h
      by_cases h0 : r = RELEASED_MASK
      · rw [if_pos h0] at h
        exact absurd h (by decide)
      · rw [if_neg h0] at h
        exact absurd h (by decide)
  subst hr
  decide

/-- C3 witness: the register value 0b111 is reported Loaded and after eight
false samples the register is empty and reported Unloaded. -/
theorem debouncer_unloads_after_eight_falses_witness :
    Debouncer.getState ⟨7⟩ = DebounceState.Loaded ∧
    ((debounceFalses ⟨7⟩ 1).getState = DebounceState.Transition ∧
     (debounceFalses ⟨7⟩ 2).getState = DebounceState.Transition ∧
     (debounceFalses ⟨7⟩ 3).getState = DebounceState.Transition ∧
     (debounceFalses ⟨7⟩ 4).getState = DebounceState.Transition ∧
     (debounceFalses ⟨7⟩ 5).getState = DebounceState.Transition ∧
     (debounceFalses ⟨7⟩ 6).getState = DebounceState.Transition ∧
     (debounceFalses ⟨7⟩ 7).getState = DebounceState.Transition ∧
     (debounceFalses ⟨7⟩ 8).getState = DebounceState.Unloaded ∧
     (debounceFalses ⟨7⟩ 8).register = 0) :=
  ⟨by decide, debouncer_unloads_after_eight_falses ⟨7⟩ (by decide)⟩

/-- C5: has_been_pressed on a successful read returns
Ok((last_state != Pressed) && (current == Pressed)) and stores the current
state as last_state, for both the plain Switch and the DebouncedSwitch;
consequently, with the pin held at the pressed level a second consecutive
call returns Ok(false), and after a released observation a new pressed
observation returns Ok(true) again. -/
theorem has_been_pressed_edge_semantics :
    (∀ (sw : Switch) (b : Bool),
      sw.hasBeenPressed (some b) =
        (Except.ok ((sw.lastState != SwitchState.Pressed)
            && (sw.getCurrentState (some b) == SwitchState.Pressed)),
          { sw with lastState := sw.getCurrentState (some b) })) ∧
    (∀ sw : Switch,
      (sw.hasBeenPressed (some sw.pressedState)).2.lastState =
        SwitchState.Pressed ∧
      ((sw.hasBeenPressed (some sw.pressedState)).2.hasBeenPressed
          (some sw.pressedState)).1 = Except.ok false) ∧
    (∀ sw : Switch,
      ((sw.hasBeenPressed (some (!sw.pressedState))).2.hasBeenPressed
          (some sw.pressedState)).1 = Except.ok true) ∧
    (∀ (dsw : DebouncedSwitch) (b : Bool),
      dsw.hasBeenPressed (some b) =
        (Except.ok ((dsw.switch.lastState != SwitchState.Pressed)
            && ((dsw.getCurrentState (some b)).1 == SwitchState.Pressed)),
          { switch :=
              { dsw.switch with lastState := (dsw.getCurrentState (some b)).1 },
            debouncer := (dsw.getCurrentState (some b)).2.debouncer })) := by
  refine ⟨?_, ?_, ?_, ?_⟩
  · intro sw b
    obtain ⟨p, last⟩ := sw
    by_cases hb : b = p <;>
      simp [Switch.hasBeenPressed, Switch.getCurrentState, hb]
  · intro sw
    obtain ⟨p, last⟩ := sw
    cases p <;> cases last <;> exact ⟨rfl, rfl⟩
  · intro sw
    obtain ⟨p, last⟩ := sw
    cases p <;> cases last <;> rfl
  · intro dsw b
    obtain ⟨⟨p, last⟩, deb⟩ := dsw
    simp only [DebouncedSwitch.hasBeenPressed, DebouncedSwitch.getCurrentState]
    cases hd : (deb.debounce (decide (b = p))).getState <;> simp only [hd]

/-- If every operation of a prefix succeeds and the next operation fails,
the operation loop stops at the failing operation: it reports its error,
keeps the bus state reached before it, and executes nothing after it. -/
lemma runOps_prefix_fail {σ ε : Type} (m : SpiBusModel σ ε) (op : SpiOp)
    (e : ε) :
    ∀ (pre : List SpiOp) (bus bus1 : σ),
      runOps m bus pre = (none, bus1, pre) →
      m.execOp bus1 op = Except.error e →
      ∀ post, runOps m bus (pre ++ op :: post) = (some e, bus1, pre ++ [op]) := by
  intro pre
  induction pre with
  | nil =>
    intro bus bus1 h hop post
    simp only [runOps, Prod.mk.injEq] at h
    obtain ⟨-, hb, -⟩ := h
    subst hb
    simp [runOps, hop]
  | cons q qs ih =>
    intro bus bus1 h hop post
    cases hq : m.execOp bus q with
    | error e2 =>
      simp only [runOps, hq] at h
      exact absurd h (by simp)
    | ok bus2 =>
      rcases hE : runOps m bus2 qs with ⟨eo, bb, tt⟩
      simp only [runOps, hq, hE, Prod.mk.injEq, List.cons.injEq, true_and] at h
      obtain ⟨h1, h2, h3⟩ := h
      subst h1
      subst h2
      subst h3
      have htail := ih bus2 bb hE hop post
      simp only [List.cons_append, runOps, hq, htail, List.append_eq]

/-- C6: when a queued operation fails against the physical bus, both
transaction implementations return the error wrapped as SpiBus, execute
none of the operations after the failing one, and never reach the
chip-select deassert step, which is reached only when every operation and
the flush succeed. -/
theorem spi_transaction_bus_error_path {σ π ε : Type} (m : SpiBusModel σ ε)
    (p : CsPinModel π) (bus bus1 : σ) (cs : π) (cs1 : π) (pre post : List SpiOp)
    (op : SpiOp) (e : ε)
    (hcs : p.setLow cs = some cs1)
    (hpre : runOps m bus pre = (none, bus1, pre))
    (hop : m.execOp bus1 op = Except.error e) :
    spiDeviceWrapperTransaction m p bus cs (pre ++ op :: post) =
      ⟨Except.error (SpiPeripheralError.SpiBus e), bus1, cs1,
        pre ++ [op], false⟩ ∧
    spiPeripheralTransaction m p (some bus) cs (pre ++ op :: post) =
      ⟨Except.error (SpiPeripheralError.SpiBus e), some bus1, cs1,
        pre ++ [op], false⟩ ∧
    (∀ ops2 : List SpiOp,
      (spiDeviceWrapperTransaction m p bus cs ops2).deassertReached = true →
        (runOps m bus ops2).1 = none ∧
        (m.flushOp (runOps m bus ops2).2.1).toOption.isSome = true) ∧
    (∀ ops2 : List SpiOp,
      (spiPeripheralTransaction m p (some bus) cs ops2).deassertReached = true →
        (runOps m bus ops2).1 = none ∧
        (m.flushOp (runOps m bus ops2).2.1).toOption.isSome = true) := by
  have hrun := runOps_prefix_fail m op e pre bus bus1 hpre hop post
  refine ⟨?_, ?_, ?_, ?_⟩
  · simp only [spiDeviceWrapperTransaction, hcs, hrun]
  · simp only [spiPeripheralTransaction, hcs, hrun]
  · intro ops2
    simp only [spiDeviceWrapperTransaction, hcs]
    rcases hr : runOps m bus ops2 with ⟨eo, b1, tr⟩
    cases eo with
    | some e2 => simp
    | none =>
      cases hf : m.flushOp b1 with
      | error e2 => simp [hf]
      | ok b2 => cases hh : p.setHigh cs1 <;> simp [hf, hh, Except.toOption]
  · intro ops2
    simp only [spiPeripheralTransaction, hcs]
    rcases hr : runOps m bus ops2 with ⟨eo, b1, tr⟩
    cases eo with
    | some e2 => simp
    | none =>
      cases hf : m.flushOp b1 with
      | error e2 => simp [hf]
      | ok b2 => cases hh : p.setHigh cs1 <;> simp [hf, hh, Except.toOption]

/-- Concrete bus model used by the C6 witness: reads fail with error 7,
every other operation and the flush succeed. -/
def spiBusModelW : SpiBusModel Nat Nat where
  readOp := fun _ => Except.error 7
  writeOp := fun n => Except.ok (n + 1)
  transferOp := fun n => Except.ok n
  transferInPlaceOp := fun n => Except.ok n
  flushOp := fun n => Except.ok n

/-- Concrete chip-select pin model used by the C6 witness: the pin level is
the state, and both writes always succeed. -/
def csPinModelW : CsPinModel Bool where
  setLow := fun _ => some false
  setHigh := fun _ => some true

/-- C6 witness: on the operation list [write, read, write] against a bus
whose read fails with error 7, the wrapper transaction returns
SpiBus 7, executes only [write, read], and does not reach the deassert
step. -/
theorem spi_transaction_bus_error_path_witness :
    csPinModelW.setLow true = some false ∧
    runOps spiBusModelW 0 [SpiOp.write] = (none, 1, [SpiOp.write]) ∧
    spiBusModelW.execOp 1 SpiOp.read = Except.error 7 ∧
    spiDeviceWrapperTransaction spiBusModelW csPinModelW 0 true
        [SpiOp.write, SpiOp.read, SpiOp.write] =
      ⟨Except.error (SpiPeripheralError.SpiBus 7), 1, false,
        [SpiOp.write, SpiOp.read], false⟩ :=
  ⟨rfl, rfl, rfl,
    (spi_transaction_bus_error_path spiBusModelW csPinModelW 0 1 true false
      [SpiOp.write] [SpiOp.write] SpiOp.read 7 rfl rfl rfl).1⟩

end Focus
